import Mathlib

/-!
Shallow embedding of `src/skills/beads-validation/scripts/validate_beads.py`.

The script queries an external issue tracker (`bd list --json`, `bd doctor`,
`bd ready --limit=1`) and reads a PRD markdown file.  Those external
interactions are modelled as explicit inputs (the `Env` structure below);
everything the script itself computes is translated to pure Lean functions,
keeping the Python names.
-/

namespace VibeBeads

/-- One issue record, as the script reads it from the tracker JSON payload.
Fields are `Option`-valued because the Python code accesses them with
`issue.get(...)`, which yields `None` when a key is absent. -/
structure Issue where
  id : Option String
  status : Option String
  priority : Option Int
  dependencies : Option (List String)
deriving Repr, DecidableEq

/-- The result of running `bd list --json`: the process exit code, and
`some issues` when stdout parsed as a JSON list (an empty stdout parses to
`some []`), `none` when `json.loads` raised `JSONDecodeError`. -/
structure BdListResp where
  code : Int
  payload : Option (List Issue)
deriving Repr, DecidableEq

/-- All external inputs one run of the script consumes, held fixed for the
run: the `bd list` response, the (code, stdout, stderr) of `bd doctor` and of
`bd ready --limit=1`, and the PRD file content (`none` when reading the
file raises). -/
structure Env where
  bdList : BdListResp
  doctorCode : Int
  doctorOut : String
  doctorErr : String
  readyCode : Int
  readyOut : String
  readyErr : String
  prdContent : Option String
deriving Repr, DecidableEq

/-- The command-line flags of the script that matter to the checks. -/
structure Args where
  prd : Option String
  check_created : Bool
  check_deps : Bool
  check_ready : Bool
  allFlag : Bool
deriving Repr, DecidableEq

/-- Python truthiness of `args.prd` (`None` and `""` are falsy). -/
def prdTruthy : Option String → Bool
  | none => false
  | some s => !(s == "")

/-- The function `get_issues`: the empty list when `bd list` exits non-zero
or its stdout does not parse; the parsed list otherwise. -/
def get_issues (r : BdListResp) : List Issue :=
  if r.code ≠ 0 then [] else r.payload.getD []

/-- Substring containment on character lists (Python `pat in s`). -/
def listContains (s pat : List Char) : Bool :=
  s.tails.any (fun t => pat.isPrefixOf t)

/-- Substring containment on strings. -/
def strContains (s pat : String) : Bool :=
  listContains s.data pat.data

/-- ASCII lower-casing, matching `str.lower()` on ASCII text. -/
def lowerStr (s : String) : String :=
  ⟨s.data.map Char.toLower⟩

/-- Python `str.split("\n")` on a character list: the list of lines, with
separators dropped and empty pieces kept. -/
def splitLines : List Char → List (List Char)
  | [] => [[]]
  | c :: rest =>
    let r := splitLines rest
    if c = '\n' then [] :: r
    else
      match r with
      | [] => [[c]]
      | h :: t => (c :: h) :: t

/-- The Python whitespace class on the characters a line can contain. -/
def isPySpace (c : Char) : Bool :=
  c = ' ' || c = '\t' || c = '\n' || c = '\r' || c = '\x0b' || c = '\x0c'

/-- The first feature-line pattern of the script as a Boolean: one or more
digits, a dot, one or more whitespace characters, then two asterisks. -/
def matchNumFeature (line : List Char) : Bool :=
  let p1 := line.span Char.isDigit
  if p1.1.isEmpty then false
  else
    match p1.2 with
    | '.' :: r2 =>
      let p2 := r2.span isPySpace
      if p2.1.isEmpty then false else ['*', '*'].isPrefixOf p2.2
    | _ => false

/-- The second feature-line pattern of the script as a Boolean: a dash, one
or more whitespace characters, then two asterisks. -/
def matchBulletFeature (line : List Char) : Bool :=
  match line with
  | '-' :: r1 =>
    let p := r1.span isPySpace
    if p.1.isEmpty then false else ['*', '*'].isPrefixOf p.2
  | _ => false

/-- One step of the feature-counting loop in `count_prd_features`: the state
is (`in_features`, running count). -/
def featStep (st : Bool × Nat) (line : List Char) : Bool × Nat :=
  let low := line.map Char.toLower
  let inf :=
    if listContains low "feature".data || listContains low "mvp".data then true
    else if ['#', '#'].isPrefixOf line && st.1 then false
    else st.1
  let cnt :=
    if inf && (matchNumFeature line || matchBulletFeature line) then st.2 + 1
    else st.2
  (inf, cnt)

/-- The feature total the loop of `count_prd_features` computes on a given
file content. -/
def featCount (content : String) : Nat :=
  ((splitLines content.data).foldl featStep (false, 0)).2

/-- The function `count_prd_features`: zero when reading the PRD file raised;
otherwise the counted features, with fallback `4` when the count is zero. -/
def count_prd_features (content : Option String) : Nat :=
  match content with
  | none => 0
  | some c =>
    let f := featCount c
    if f > 0 then f else 4

/-- Rendering of an optional issue id inside a Python f-string. -/
def showOptId : Option String → String
  | none => "None"
  | some s => s

/-- The function `check_prd_mapping`, over the PRD content and the `bd list`
response. -/
def check_prd_mapping (content : Option String) (r : BdListResp) :
    Bool × String :=
  let prd_features := count_prd_features content
  let issues := get_issues r
  let issue_count := issues.length
  if prd_features = 0 then (true, "Could not parse PRD features")
  else if issue_count ≥ prd_features then
    (true, "PRD features: " ++ toString prd_features ++ ", Issues: " ++
      toString issue_count)
  else
    (false, "PRD has " ++ toString prd_features ++ " features, only " ++
      toString issue_count ++ " issues created")

/-- The ids present in the snapshot (`issue_ids` in the script; the script
builds a set, used only for membership tests). -/
def issueIds (issues : List Issue) : List (Option String) :=
  issues.map Issue.id

/-- The dependency list the script reads from an issue:
`issue.get("dependencies", []) or []`. -/
def depsOf (i : Issue) : List String :=
  i.dependencies.getD []

/-- The (source id, missing id) pairs the loop of `check_dependencies`
encounters, in loop order. -/
def violPairs (issues : List Issue) : List (Option String × String) :=
  issues.flatMap fun i =>
    ((depsOf i).filter (fun d => !((issueIds issues).contains (some d)))).map
      (fun d => (i.id, d))

/-- The accumulator of `check_dependencies`: one message of the form
source-id, arrow, missing-id per dangling edge, in loop order. -/
def invalidDeps (issues : List Issue) : List String :=
  issues.flatMap fun i =>
    ((depsOf i).filter (fun d => !((issueIds issues).contains (some d)))).map
      (fun d => showOptId i.id ++ " → " ++ d)

/-- The function `check_dependencies`. -/
def check_dependencies (issues : List Issue) : Bool × String :=
  let invalid := invalidDeps issues
  if invalid.isEmpty then (true, "All dependency IDs exist")
  else (false, "Invalid dependencies: " ++ String.intercalate ", " invalid)

/-- The function `check_circular_deps`: the script never looks at the issue
graph; it only pattern-matches the words circular or cycle in the combined
`bd doctor` output, and otherwise passes. -/
def check_circular_deps (code : Int) (stdout stderr : String) :
    Bool × String :=
  let output := stdout ++ stderr
  if strContains (lowerStr output) "circular" ||
      strContains (lowerStr output) "cycle" then
    (false, "Circular dependency detected: " ++ output.take 200)
  else if code = 0 then (true, "No circular dependencies")
  else (true, "bd doctor passed (or not available)")

/-- The test `"no open issues" in output.lower() or "no issues" in
output.lower()` from `check_ready_queue`. -/
def noIssuesMarker (output : String) : Bool :=
  strContains (lowerStr output) "no open issues" ||
    strContains (lowerStr output) "no issues"

/-- Attempted match of the regex `[a-z]+-[a-z0-9]+` starting exactly at the
head of the list: the matched characters, or `none`. -/
def matchIdAt (l : List Char) : Option (List Char) :=
  let p1 := l.span (fun c => 'a' ≤ c && c ≤ 'z')
  if p1.1.isEmpty then none
  else
    match p1.2 with
    | '-' :: r2 =>
      let p2 := r2.span (fun c => ('a' ≤ c && c ≤ 'z') || ('0' ≤ c && c ≤ '9'))
      if p2.1.isEmpty then none else some (p1.1 ++ '-' :: p2.1)
    | _ => none

/-- The regex search the script performs on the `bd ready` output: leftmost
match of lowercase letters, a dash, then lowercase letters or digits. -/
def searchId : List Char → Option (List Char)
  | [] => none
  | c :: rest =>
    match matchIdAt (c :: rest) with
    | some m => some m
    | none => searchId rest

/-- The issue id `check_ready_queue` extracts from the `bd ready` output. -/
def findReadyId (s : String) : Option String :=
  (searchId s.data).map (fun l => ⟨l⟩)

/-- The function `check_ready_queue`, over the `bd ready` output and the
issue snapshot the script re-fetches inside the no-issues branch. -/
def check_ready_queue (stdout stderr : String) (issues : List Issue) :
    Bool × String :=
  let output := stdout ++ stderr
  if noIssuesMarker output then
    let openIssues := issues.filter (fun i => !(i.status == some "closed"))
    if openIssues.isEmpty then (true, "No open issues (all done)")
    else (false, "Issues exist but none are ready (all blocked)")
  else
    match findReadyId output with
    | some m => (true, "Ready queue has issue: " ++ m)
    | none => (true, "Ready queue check passed")

/-- The predicate of the `check_priorities` loop:
`issue.get("priority", 1) not in [1, 2, 3]`. -/
def badPriority (i : Issue) : Bool :=
  !(([1, 2, 3] : List Int).contains (i.priority.getD 1))

/-- The accumulator of `check_priorities`: one message naming the issue id
and the observed priority per offending issue. -/
def invalidPrios (issues : List Issue) : List String :=
  (issues.filter badPriority).map
    (fun i => showOptId i.id ++ ": priority=" ++ toString (i.priority.getD 1))

/-- The function `check_priorities`. -/
def check_priorities (issues : List Issue) : Bool × String :=
  let invalid := invalidPrios issues
  if invalid.isEmpty then (true, "All priorities valid (1-3)")
  else (false, "Invalid priorities: " ++ String.intercalate ", " invalid)

/-- The result rows `main` accumulates before the summary, in print order,
excluding the always-run priorities row. -/
def preResults (a : Args) (e : Env) : List (String × Bool × String) :=
  let cc := a.check_created || a.allFlag
  let cd := a.check_deps || a.allFlag
  let cr := a.check_ready || a.allFlag
  (if cc && prdTruthy a.prd then
    [("PRD Mapping", check_prd_mapping e.prdContent e.bdList)]
  else []) ++
  (if cd then
    [("Dependencies", check_dependencies (get_issues e.bdList)),
     ("Circular Deps", check_circular_deps e.doctorCode e.doctorOut e.doctorErr)]
  else []) ++
  (if cr then
    [("Ready Queue", check_ready_queue e.readyOut e.readyErr (get_issues e.bdList))]
  else [])

/-- The full `results` list of `main`: the selected checks, then the
priorities check, which always runs. -/
def mainResults (a : Args) (e : Env) : List (String × Bool × String) :=
  preResults a e ++ [("Priorities", check_priorities (get_issues e.bdList))]

/-- The process exit status of `main`: `1` when any accumulated result
failed, else `0`. -/
def mainExit (a : Args) (e : Env) : Nat :=
  if (mainResults a e).any (fun r => !r.2.1) then 1 else 0

/-- The dependency relation of a snapshot: `x` depends on `y` when some issue
record with id `x` lists `y` among its dependencies. -/
def dependsOn (issues : List Issue) (x y : String) : Prop :=
  ∃ i ∈ issues, i.id = some x ∧ y ∈ depsOf i

/-- A two-issue snapshot whose dependency relation is a two-cycle. -/
def cycIssues : List Issue :=
  [⟨some "a", some "open", some 1, some ["b"]⟩,
   ⟨some "b", some "open", some 1, some ["a"]⟩]

/-- A one-issue snapshot whose single issue depends on itself. -/
def selfIssues : List Issue :=
  [⟨some "a", some "open", some 1, some ["a"]⟩]

/-- Following the words of the spec, for comparison with the code: the
overall verdict as the logical AND over the required checks only —
Integrity (dependencies), Cycle, and Invariant (priorities) — each evaluated
on the run inputs. -/
def specRequiredVerdict (e : Env) : Bool :=
  (check_dependencies (get_issues e.bdList)).1 &&
    (check_circular_deps e.doctorCode e.doctorOut e.doctorErr).1 &&
    (check_priorities (get_issues e.bdList)).1

/-- The flags of a `--all` run with no PRD path. -/
def allArgs : Args := ⟨none, false, false, false, true⟩

/-- An environment where the tracker query fails (`bd list` exits 1) and
every other external probe reports nothing. -/
def downEnv : Env := ⟨⟨1, none⟩, 0, "", "", 0, "no open issues", "", none⟩

/-- An environment with one open issue where `bd ready` reports that nothing
is ready: a readiness deadlock, while integrity, cycle and priority checks
all pass. -/
def deadlockEnv : Env :=
  ⟨⟨0, some [⟨some "a", some "open", some 1, some []⟩]⟩, 0, "", "", 0,
    "no open issues", "", none⟩

/-- Claim C1: the cycle check is claimed to detect cycles of the dependency
graph by an in-process three-color DFS and to report every cycle with its
full ordered path.  The code does neither: `check_circular_deps` never
receives the graph; it only pattern-matches the `bd doctor` prose.  On a
snapshot whose dependency relation has the cycle a, b, a, the check passes
when the doctor output is clean, and also passes when the `bd` tool is
absent altogether, while the integrity check accepts the snapshot. -/
theorem circular_check_ignores_graph :
    Relation.TransGen (dependsOn cycIssues) "a" "a" ∧
    check_circular_deps 0 "" "" = (true, "No circular dependencies") ∧
    check_circular_deps 127 "" "sh: bd: command not found" =
      (true, "bd doctor passed (or not available)") ∧
    check_dependencies cycIssues = (true, "All dependency IDs exist") := by
  refine ⟨?_, rfl, rfl, rfl⟩
  have hab : dependsOn cycIssues "a" "b" :=
    ⟨⟨some "a", some "open", some 1, some ["b"]⟩, by simp [cycIssues], rfl,
      by simp [depsOf]⟩
  have hba : dependsOn cycIssues "b" "a" :=
    ⟨⟨some "b", some "open", some 1, some ["a"]⟩, by simp [cycIssues], rfl,
      by simp [depsOf]⟩
  exact Relation.TransGen.head hab (Relation.TransGen.single hba)

/-- Claim C5: a self-dependency is claimed to be classified as a cycle of
length 1 and never silently dropped.  On the snapshot with the single issue
a depending on itself, the integrity check indeed does not flag it (its id
is a key), but the cycle check, a function of the `bd doctor` output alone,
passes when that output is clean: the length-1 cycle is silently dropped. -/
theorem self_loop_silently_dropped :
    dependsOn selfIssues "a" "a" ∧
    check_dependencies selfIssues = (true, "All dependency IDs exist") ∧
    check_circular_deps 0 "" "" = (true, "No circular dependencies") := by
  refine ⟨?_, rfl, rfl⟩
  exact ⟨⟨some "a", some "open", some 1, some ["a"]⟩, by simp [selfIssues],
    rfl, by simp [depsOf]⟩

/-- Claim C4: when the tracker query fails the loader does return an empty
graph and the run continues, but no StoreUnavailable warning is signalled
and no check reports that there were no issues to validate: on a `--all` run
with `bd list` failing, every check reports an affirmative success message
and the exit status is 0 — the failure passes silently. -/
theorem tracker_down_passes_silently :
    get_issues ⟨1, none⟩ = [] ∧
    mainResults allArgs downEnv =
      [("Dependencies", true, "All dependency IDs exist"),
       ("Circular Deps", true, "No circular dependencies"),
       ("Ready Queue", true, "No open issues (all done)"),
       ("Priorities", true, "All priorities valid (1-3)")] ∧
    mainExit allArgs downEnv = 0 :=
  ⟨rfl, rfl, rfl⟩

/-- Claim C2, counterexample: the claim says the exit status is 0 iff the
AND of the required checks (integrity, cycle, invariant) passes, and that a
readiness deadlock alone never forces exit 1.  In `deadlockEnv` the three
required checks all pass, yet the run exits 1 because the ready-queue check
failed. -/
theorem exit_not_required_verdict :
    specRequiredVerdict deadlockEnv = true ∧ mainExit allArgs deadlockEnv = 1 :=
  ⟨rfl, rfl⟩

/-- Claim C2, amended: the exit status is 0 iff every executed check passed;
all executed checks count equally (there is no warning tier and no strict
mode), so a failing ready-queue or PRD-mapping check alone does force exit
status 1. -/
theorem exit_zero_iff_all_pass (a : Args) (e : Env) :
    mainExit a e = 0 ↔ (mainResults a e).all (fun r => r.2.1) = true := by
  have h : ∀ l : List (String × Bool × String),
      l.any (fun r => !r.2.1) = !l.all (fun r => r.2.1) := by
    intro l
    induction l with
    | nil => rfl
    | cons x xs ih => simp [List.any_cons, List.all_cons, ih, Bool.not_and]
  simp only [mainExit, h]
  cases hall : (mainResults a e).all (fun r => r.2.1) <;> simp [hall]

/-- Witness for the amended claim C2 at a concrete run in which every
executed check passes. -/
theorem exit_zero_iff_all_pass_witness :
    mainExit ⟨none, false, false, false, true⟩
      ⟨⟨0, some []⟩, 0, "", "", 0, "", "", none⟩ = 0 :=
  (exit_zero_iff_all_pass ⟨none, false, false, false, true⟩
    ⟨⟨0, some []⟩, 0, "", "", 0, "", "", none⟩).mpr (by rfl)

/-- Claim C3: the integrity check passes exactly when every dependency id
referenced by any issue is an id of the snapshot; the loop collects, in one
pass over all issue/edge pairs, exactly the (source id, missing id) pairs
whose target id is absent, and renders each of them in the failure
message. -/
theorem check_dependencies_characterization (issues : List Issue) :
    ((check_dependencies issues).1 = true ↔
      ∀ i ∈ issues, ∀ d ∈ depsOf i, some d ∈ issueIds issues) ∧
    (∀ src d, (src, d) ∈ violPairs issues ↔
      ∃ i ∈ issues, i.id = src ∧ d ∈ depsOf i ∧ some d ∉ issueIds issues) ∧
    invalidDeps issues =
      (violPairs issues).map (fun p => showOptId p.1 ++ " → " ++ p.2) := by
  have hc : ∀ (l : List (Option String)) (x : Option String),
      l.contains x = true ↔ x ∈ l := fun l x => List.elem_iff
  refine ⟨?_, ?_, ?_⟩
  · have hfst : (check_dependencies issues).1 = (invalidDeps issues).isEmpty := by
      unfold check_dependencies
      cases h : (invalidDeps issues).isEmpty <;> simp [h]
    rw [hfst, List.isEmpty_iff]
    simp only [invalidDeps, List.flatMap_eq_nil_iff, List.map_eq_nil_iff,
      List.filter_eq_nil_iff]
    constructor
    · intro h i hi d hd
      have := h i hi d hd
      simpa [hc] using this
    · intro h i hi d hd
      simpa [hc] using h i hi d hd
  · intro src d
    simp only [violPairs, List.mem_flatMap, List.mem_map, List.mem_filter]
    constructor
    · rintro ⟨i, hi, d', ⟨hd', hbad⟩, heq⟩
      obtain ⟨h1, h2⟩ := Prod.mk.injEq .. ▸ heq
      subst h2
      refine ⟨i, hi, h1, hd', ?_⟩
      intro hmem
      rw [(hc _ _).mpr hmem] at hbad
      simp at hbad
    · rintro ⟨i, hi, hid, hd, hnot⟩
      refine ⟨i, hi, d, ⟨hd, ?_⟩, by rw [hid]⟩
      cases h : (issueIds issues).contains (some d)
      · rfl
      · exact absurd ((hc _ _).mp h) hnot
  · simp only [invalidDeps, violPairs, List.map_flatMap, List.map_map,
      Function.comp_def]

/-- Witness for claim C3 at a concrete snapshot with one dangling
dependency. -/
theorem check_dependencies_characterization_witness :
    (some "a", "z") ∈ violPairs [⟨some "a", some "open", some 1, some ["z"]⟩] :=
  ((check_dependencies_characterization
      [⟨some "a", some "open", some 1, some ["z"]⟩]).2.1 (some "a") "z").mpr
    ⟨⟨some "a", some "open", some 1, some ["z"]⟩, by simp, rfl, by decide,
      by decide⟩

/-- Claim C6: inside the branch where the `bd ready` probe reports an empty
queue, the readiness check distinguishes the two outcomes: with no open
issue in the snapshot it passes with the all-done message, and with at least
one open issue it fails with the deadlock message; the two results are
distinct. -/
theorem ready_queue_two_outcomes (stdout stderr : String)
    (issues : List Issue) (h : noIssuesMarker (stdout ++ stderr) = true) :
    ((issues.filter (fun i => !(i.status == some "closed"))).isEmpty = true →
      check_ready_queue stdout stderr issues =
        (true, "No open issues (all done)")) ∧
    ((issues.filter (fun i => !(i.status == some "closed"))).isEmpty = false →
      check_ready_queue stdout stderr issues =
        (false, "Issues exist but none are ready (all blocked)")) ∧
    ((true, "No open issues (all done)") ≠
      ((false, "Issues exist but none are ready (all blocked)") :
        Bool × String)) := by
  refine ⟨?_, ?_, by decide⟩ <;> intro hopen <;>
    simp [check_ready_queue, h, hopen]

/-- Witness for claim C6: both branches at concrete inputs. -/
theorem ready_queue_two_outcomes_witness :
    check_ready_queue "no open issues" "" [] =
      (true, "No open issues (all done)") ∧
    check_ready_queue "no open issues" ""
        [⟨some "a", some "open", some 1, some []⟩] =
      (false, "Issues exist but none are ready (all blocked)") :=
  ⟨(ready_queue_two_outcomes "no open issues" "" [] (by rfl)).1 (by rfl),
   (ready_queue_two_outcomes "no open issues" ""
      [⟨some "a", some "open", some 1, some []⟩] (by rfl)).2.1 (by rfl)⟩

/-- Claim C7: the priority check passes exactly when every issue has an
effective priority in the set 1, 2, 3; every offending issue contributes a
violation message carrying its id and observed priority; and the priorities
row of the final report is always the last row, a function of the snapshot
alone, unaffected by the flags and by every other check. -/
theorem check_priorities_characterization (issues : List Issue) (a : Args)
    (e : Env) :
    ((check_priorities issues).1 = true ↔
      ∀ i ∈ issues, i.priority.getD 1 ∈ ([1, 2, 3] : List Int)) ∧
    (∀ i ∈ issues, badPriority i = true →
      (showOptId i.id ++ ": priority=" ++ toString (i.priority.getD 1)) ∈
        invalidPrios issues) ∧
    (mainResults a e).getLast? =
      some ("Priorities", check_priorities (get_issues e.bdList)) := by
  refine ⟨?_, ?_, ?_⟩
  · have hfst : (check_priorities issues).1 = (invalidPrios issues).isEmpty := by
      unfold check_priorities
      cases h : (invalidPrios issues).isEmpty <;> simp [h]
    rw [hfst, List.isEmpty_iff]
    simp only [invalidPrios, List.map_eq_nil_iff, List.filter_eq_nil_iff,
      badPriority]
    constructor
    · intro h i hi
      have h2 := h i hi
      simp [List.elem_iff] at h2 ⊢
      tauto
    · intro h i hi
      have h2 := h i hi
      simp [List.elem_iff] at h2 ⊢
      tauto
  · intro i hi hbad
    exact List.mem_map_of_mem _ (List.mem_filter.mpr ⟨hi, hbad⟩)
  · unfold mainResults
    rw [List.getLast?_concat]

/-- Claim C8: on every readable document content, the feature-count
extractor returns a strictly positive integer, and when the counting loop
finds nothing it returns the fixed fallback 4 — never zero. -/
theorem count_prd_features_pos (content : String) :
    0 < count_prd_features (some content) ∧
    (featCount content = 0 → count_prd_features (some content) = 4) := by
  have h : count_prd_features (some content) =
      if featCount content > 0 then featCount content else 4 := rfl
  constructor
  · rw [h]; split <;> omega
  · intro h0; rw [h, h0]; simp

/-- Witness for claim C8 at a document with no features section. -/
theorem count_prd_features_pos_witness :
    0 < count_prd_features (some "x") ∧ count_prd_features (some "x") = 4 :=
  ⟨(count_prd_features_pos "x").1, (count_prd_features_pos "x").2 (by rfl)⟩

/-- Claim C9: the whole run is a deterministic function of the external
inputs: two runs whose tracker response, doctor probe, ready probe and PRD
content agree produce the same report rows and the same exit status — there
is no hidden state between runs. -/
theorem run_deterministic (a : Args) (e1 e2 : Env)
    (h1 : e1.bdList = e2.bdList) (h2 : e1.doctorCode = e2.doctorCode)
    (h3 : e1.doctorOut = e2.doctorOut) (h4 : e1.doctorErr = e2.doctorErr)
    (h5 : e1.readyCode = e2.readyCode) (h6 : e1.readyOut = e2.readyOut)
    (h7 : e1.readyErr = e2.readyErr) (h8 : e1.prdContent = e2.prdContent) :
    mainResults a e1 = mainResults a e2 ∧ mainExit a e1 = mainExit a e2 := by
  obtain rfl : e1 = e2 := by
    cases e1; cases e2; simp_all
  exact ⟨rfl, rfl⟩

/-- Witness for claim C9 at a concrete environment. -/
theorem run_deterministic_witness :
    mainResults allArgs deadlockEnv = mainResults allArgs deadlockEnv ∧
    mainExit allArgs deadlockEnv = mainExit allArgs deadlockEnv :=
  run_deterministic allArgs deadlockEnv deadlockEnv rfl rfl rfl rfl rfl rfl
    rfl rfl

/-- Claim C10: an issue record with no priority field gets the default 1,
which is in the valid set, so a snapshot whose issues all lack the priority
field always passes the priority check. -/
theorem missing_priority_defaults_ok (issues : List Issue)
    (h : ∀ i ∈ issues, i.priority = none) :
    check_priorities issues = (true, "All priorities valid (1-3)") := by
  have hnil : invalidPrios issues = [] := by
    unfold invalidPrios
    rw [List.map_eq_nil_iff, List.filter_eq_nil_iff]
    intro i hi
    rw [show badPriority i = false from by rw [badPriority, h i hi]; rfl]
    simp
  unfold check_priorities
  rw [hnil]
  rfl

/-- Witness for claim C10 at a one-issue snapshot lacking the priority
field. -/
theorem missing_priority_defaults_ok_witness :
    check_priorities [⟨some "a", some "open", none, none⟩] =
      (true, "All priorities valid (1-3)") :=
  missing_priority_defaults_ok [⟨some "a", some "open", none, none⟩]
    (by decide)

end VibeBeads
